import Mathlib

/-!
# StudioBuddy backend: formal model of `src/backend/main.py`

This file gives a shallow embedding of the parts of the StudioBuddy
Matchering backend relevant to its analysis and volume-control behaviour:

* the `/analyze` endpoint (`analyze_audio`) together with the `_to_wav`
  upload validation/conversion it calls;
* the `_apply_volume_control` / `_soft_limit` mastering post-processing;
* the tempo-estimation and key-classification core, which the endpoint's
  `TODO` placeholder stands in for and which is modelled from the design
  specification.

External effects (ffmpeg subprocess results, librosa decoding, soundfile
writes) are passed in explicitly as environment records; machine floats are
modelled as exact rationals (for the decidable pipeline) or reals (for
transcendental limiter arithmetic).
-/

namespace StudioBuddy

/-! ## HTTP-level data -/

/-- A FastAPI `HTTPException`: a status code and a detail string. -/
structure HTTPException where
  status : Nat
  detail : String
deriving DecidableEq, Repr

/-- The JSON object returned by the `/analyze` endpoint
(`{"bpm": ..., "key": ..., "duration": ..., "sample_rate": ...}`).
In the source the `duration` and `sample_rate` values are string literals
(`"3:24"`, `"44.1 kHz"`), not the float/int promised by the docstring, so the
fields are string-typed here. JSON numbers are modelled as exact rationals. -/
structure AnalysisResult where
  bpm : ℚ
  key : String
  duration : String
  sample_rate : String
deriving DecidableEq, Repr

/-- Outcomes of the external `ffmpeg` invocations made by `_to_wav`, which the
model cannot predict and therefore takes as an explicit environment. -/
structure FfmpegEnv where
  probeOK : Bool
  convertOK : Bool
  outputExists : Bool
  outputSize : Nat
deriving DecidableEq, Repr

/-- `_to_wav` (src/backend/main.py:286-375): validates the uploaded file's
size, probes it with ffmpeg, converts it to WAV and validates the output.
Every failure raises an `HTTPException` with status 400; success returns the
output path. The input is abstracted to its byte size (the only property the
function's control flow reads) plus the ffmpeg environment. -/
def _to_wav (fileSize : Nat) (env : FfmpegEnv) : Except HTTPException String :=
  if fileSize = 0 then
    .error ⟨400, "Uploaded file is empty"⟩
  else if fileSize < 1024 then
    .error ⟨400, "Uploaded file is too small to be a valid audio file"⟩
  else if !env.probeOK then
    .error ⟨400, "Invalid audio file format or corrupted file"⟩
  else if !env.convertOK then
    .error ⟨400, "Audio conversion failed"⟩
  else if !env.outputExists then
    .error ⟨400, "Audio conversion completed but output file was not created"⟩
  else if env.outputSize = 0 then
    .error ⟨400, "Audio conversion produced empty file"⟩
  else
    .ok "converted.wav"

/-- `analyze_audio` (src/backend/main.py:457-489): saves the upload, converts
it via `_to_wav`, and returns the hardcoded mock analysis object.  Any
exception raised inside the `try` block — including the `HTTPException`s that
`_to_wav` raises, since `HTTPException` subclasses `Exception` — is caught and
re-raised as status 500 with detail `"Analysis failed: ..."`. -/
def analyze_audio (fileSize : Nat) (env : FfmpegEnv) :
    Except HTTPException AnalysisResult :=
  match _to_wav fileSize env with
  | .error e => .error ⟨500, "Analysis failed: " ++ e.detail⟩
  | .ok _ => .ok ⟨128, "A Minor", "3:24", "44.1 kHz"⟩

/-- The fixed note-name table of the specification. -/
def NOTE_NAMES : List String :=
  ["C", "C#", "D", "D#", "E", "F"] ++ ["F#", "G", "G#", "A", "A#", "B"]

/-- The 24 admissible key labels `"<NoteName> <Major|Minor>"`. -/
def KEY_STRINGS : List String :=
  (NOTE_NAMES.map (fun n => n ++ " Major")) ++ (NOTE_NAMES.map (fun n => n ++ " Minor"))

/-- An ffmpeg environment in which every external step succeeds and the
converted file is non-empty. -/
def envAllOk : FfmpegEnv := ⟨true, true, true, 4096⟩

/-- The in-memory job registry (`JOBS` in the source): job id to a record of
optional string fields (`status`, `message`, `output_path`, `tmpdir`). -/
def JobStore := List (String × List (String × Option String))

/-- One call of the `/analyze` endpoint threaded through the module-level
mutable state.  The endpoint's body (src/backend/main.py:457-489) never reads
or writes the `JOBS` registry, so the state passes through untouched. -/
def analyze_call (fileSize : Nat) (env : FfmpegEnv) (jobs : JobStore) :
    Except HTTPException AnalysisResult × JobStore :=
  (analyze_audio fileSize env, jobs)

/-! ## The tempo-estimation core

The pipeline below is **modelled from the spec** (§4.3 of the design
document): the repository's `/analyze` endpoint carries only a
`TODO: Integrate actual BPM/key analysis library` placeholder, so the
Tempo Estimator itself is not under `src/`.  Magnitudes are exact
rationals; the analysis constants chosen (one consistent set, as the spec
instructs) are `n_fft = 2048`, `hop = 256`, analysis rate `22050` Hz. -/

/-- Modelled from the spec: spectral flux between two adjacent spectral
columns — the sum over frequency bins of the rectified (non-negative)
energy increase `max 0 (cur - prev)`. -/
def flux (prev cur : List ℚ) : ℚ :=
  ((cur.zipWith (fun c p => max 0 (c - p)) prev)).sum

/-- Modelled from the spec: the onset envelope of a spectral matrix (given as
its list of columns in time order) — one flux value per adjacent column
pair, so its length is one less than the number of columns. -/
def onsetEnvelope (S : List (List ℚ)) : List ℚ :=
  (S.zip (S.drop 1)).map (fun pc => flux pc.1 pc.2)

/-- The largest entry of a list of non-negative rationals (0 for `[]`). -/
def listMax (l : List ℚ) : ℚ := l.foldr max 0

/-- Modelled from the spec: envelope conditioning — divide by the peak
(skipped when the peak is 0), then subtract the mean. -/
def normalizeEnv (e : List ℚ) : List ℚ :=
  let m := listMax e
  let e1 := if m = 0 then e else e.map (fun x => x / m)
  let mean := e1.sum / (e1.length : ℚ)
  e1.map (fun x => x - mean)

/-- Modelled from the spec: the non-negative-lag half of the envelope's
autocorrelation, `ac[d] = Σ_t e[t] * e[t+d]`, same length as the envelope. -/
def autocorr (e : List ℚ) : List ℚ :=
  (List.range e.length).map (fun d => ((e.zip (e.drop d)).map (fun p => p.1 * p.2)).sum)

/-- Index of the largest autocorrelation value on the lag window
`[lo, hi)`; ties go to the smaller lag. -/
def argmaxInRange (ac : List ℚ) (lo hi : Nat) : Nat :=
  ((List.range (hi - lo)).map (fun i => i + lo)).foldl
    (fun best d => if ac.getD d 0 > ac.getD best 0 then d else best) lo

/-- Modelled from the spec: smallest searched lag,
`round (sr * 60 / (200 * hop))` (200 BPM end of the tempo window). -/
def minLagOf (sr hop : ℚ) : ℤ := round (sr * 60 / (200 * hop))

/-- Modelled from the spec: largest searched lag,
`round (sr * 60 / (60 * hop))` (60 BPM end of the tempo window). -/
def maxLagOf (sr hop : ℚ) : ℤ := round (sr * 60 / (60 * hop))

/-- Modelled from the spec: the octave-correction candidates
`{bpm/2, bpm, bpm*2}`, each paired with the autocorrelation value at its
corresponding lag (`2*lag`, `lag`, and `lag/2` rounded, respectively;
out-of-array lags read as 0). -/
def octaveCandidates (bpm : ℚ) (lag : Nat) (ac : List ℚ) : List (ℚ × ℚ) :=
  [(bpm / 2, ac.getD (2 * lag) 0), (bpm, ac.getD lag 0), (bpm * 2, ac.getD ((lag + 1) / 2) 0)]

/-- The candidates surviving the `[60, 200]` BPM range filter. -/
def survivors (bpm : ℚ) (lag : Nat) (ac : List ℚ) : List (ℚ × ℚ) :=
  (octaveCandidates bpm lag ac).filter (fun c => 60 ≤ c.1 ∧ c.1 ≤ 200)

/-- Keeps, of a head candidate and a list of further candidates, the one
with the strictly largest associated autocorrelation value (earlier
candidates win ties). -/
def pickBest (c : ℚ × ℚ) (l : List (ℚ × ℚ)) : ℚ × ℚ :=
  l.foldl (fun best x => if x.2 > best.2 then x else best) c

/-- Modelled from the spec: octave correction — among the candidates
surviving the range filter return the one whose autocorrelation value is
largest; if none survives, return the raw BPM unchanged. -/
def octaveCorrect (bpm : ℚ) (lag : Nat) (ac : List ℚ) : ℚ :=
  match survivors bpm lag ac with
  | [] => bpm
  | c :: cs => (pickBest c cs).1

/-- Modelled from the spec: tempo estimation from an onset envelope —
condition the envelope, autocorrelate, and search `[min_lag, max_lag)`;
when the envelope is too short for the lag window (`max_lag ≤ min_lag`, or
`max_lag` beyond the autocorrelation array bounds) return the fixed
fallback 120.0 BPM. -/
def tempoFromEnvelope (e : List ℚ) (sr hop : ℚ) : ℚ :=
  let ac := autocorr (normalizeEnv e)
  let minLag := minLagOf sr hop
  let maxLag := maxLagOf sr hop
  if maxLag ≤ minLag ∨ (ac.length : ℤ) < maxLag then 120
  else
    let lag := argmaxInRange ac minLag.toNat maxLag.toNat
    octaveCorrect (60 * sr / ((lag : ℚ) * hop)) lag ac

/-- Modelled from the spec: the Tempo Estimator — onset envelope extraction
followed by autocorrelation tempo search. -/
def tempoEstimate (S : List (List ℚ)) (sr hop : ℚ) : ℚ :=
  tempoFromEnvelope (onsetEnvelope S) sr hop

/-! ### Concrete test signals

An idealized click is a broadband impulse: every frequency bin of a frame
containing it receives one unit of energy, so a column of the spectral
matrix is the constant column `count of clicks inside the frame's window`.
Frames are `n_fft = 2048` samples long and advance by `hop = 256`. -/

/-- Number of clicks (sample positions `clicks`) lying inside analysis
frame `t`, i.e. in `[256*t, 256*t + 2048)`. -/
def clickCount (clicks : List Nat) (t : Nat) : ℚ :=
  ((clicks.filter (fun s => 256 * t ≤ s ∧ s < 256 * t + 2048)).length : ℚ)

/-- Onsets every 0.5 s at 22050 Hz: clicks at samples 0, 11025, 22050. -/
def clicks120 : List Nat := [0, 11025, 22050]

/-- Spectral matrix of the 120 BPM click track over 88 frames
(`2048 + 87*256 = 24320` samples ≈ 1.1 s), 1025 bins per column. -/
def clickMatrix120 : List (List ℚ) :=
  ((List.range 88).map (clickCount clicks120)).map (List.replicate 1025)

/-- Onsets every 0.75 s (80 BPM) at 22050 Hz: clicks at samples
`⌊k * 16537.5⌋`. -/
def clicks80 : List Nat := [0, 16537, 33075, 49612]

/-- Spectral matrix of the 80 BPM click track over 200 frames
(`2048 + 199*256 = 52992` samples ≈ 2.4 s), 1025 bins per column. -/
def clickMatrix80 : List (List ℚ) :=
  ((List.range 200).map (clickCount clicks80)).map (List.replicate 1025)

/-- A steady pure tone has a (near-)constant magnitude spectrum, so its
spectral matrix has identical columns; three frames of it give an onset
envelope of length 2, far shorter than the 60–200 BPM lag window. -/
def shortToneMatrix : List (List ℚ) :=
  List.replicate 3 (List.replicate 1025 (3 / 10))

/-! ## The key-classification core

Also **modelled from the spec** (§4.4–§4.5): chroma extraction over ℝ (the
pitch mapping needs a base-2 logarithm) and Krumhansl–Schmuckler template
correlation.  The spectral matrix is again a list of columns. -/

/-- Modelled from the spec: the Krumhansl–Schmuckler major profile. -/
noncomputable def major_profile : List ℝ :=
  [6.35, 2.23, 3.48, 2.33, 4.38, 4.09, 2.52, 5.19, 2.39, 3.66, 2.29, 2.88]

/-- Modelled from the spec: the Krumhansl–Schmuckler minor profile. -/
noncomputable def minor_profile : List ℝ :=
  [6.33, 2.68, 3.52, 5.38, 2.60, 3.53, 2.54, 4.75, 3.98, 2.69, 3.34, 3.17]

/-- Center frequency of FFT bin `k`: `k * sr / n_fft`. -/
noncomputable def binFreq (sr : ℝ) (nfft k : Nat) : ℝ := k * sr / nfft

/-- Modelled from the spec: nearest equal-tempered pitch class of frequency
`f`, via the MIDI note number `69 + 12 * log2 (f / 440)`. -/
noncomputable def pitchClassOf (f : ℝ) : ℤ :=
  round (69 + 12 * Real.logb 2 (f / 440)) % 12

/-- Mean energy of bin `k` across the columns of the spectral matrix. -/
noncomputable def meanEnergy (S : List (List ℝ)) (k : Nat) : ℝ :=
  (S.map (fun col => col.getD k 0)).sum / (S.length : ℝ)

/-- Modelled from the spec: the 12-slot chroma vector — bins whose center
frequency lies in `[80, 2000]` Hz contribute their mean energy to the slot
of their pitch class. -/
noncomputable def chroma (S : List (List ℝ)) (sr : ℝ) (nfft : Nat) : List ℝ :=
  (List.range 12).map (fun pc =>
    (((List.range (nfft / 2 + 1)).filter (fun k =>
        80 ≤ binFreq sr nfft k ∧ binFreq sr nfft k ≤ 2000 ∧
          pitchClassOf (binFreq sr nfft k) = (pc : ℤ))).map
      (fun k => meanEnergy S k)).sum)

/-- Modelled from the spec: normalize the chroma vector by its sum, skipped
when the sum is 0 (leaving the all-zero vector). -/
noncomputable def normalizeChroma (c : List ℝ) : List ℝ :=
  if c.sum = 0 then c else c.map (fun x => x / c.sum)

/-- Cyclic rotation of a 12-element template so that its tonic slot lands on
pitch class `i`: `rotated[j] = p[(j + 12 - i) % 12]`. -/
def rotateTemplate (p : List ℝ) (i : Nat) : List ℝ :=
  (List.range 12).map (fun j => p.getD ((j + 12 - i % 12) % 12) 0)

/-- Modelled from the spec: Pearson correlation of two equal-length vectors,
defined as 0 when either mean-centered vector has norm 0 (guarded
division). -/
noncomputable def pearson (x y : List ℝ) : ℝ :=
  let xm := x.sum / (x.length : ℝ)
  let ym := y.sum / (y.length : ℝ)
  let num := ((x.zip y).map (fun p => (p.1 - xm) * (p.2 - ym))).sum
  let den := Real.sqrt ((x.map (fun a => (a - xm) ^ 2)).sum) *
    Real.sqrt ((y.map (fun b => (b - ym) ^ 2)).sum)
  if den = 0 then 0 else num / den

/-- Modelled from the spec: the Key Classifier — try all 12 rotations of both
profiles, track the best-scoring (rotation, mode) pair starting from score
−1, and render `"<tonic-name> <Major|Minor>"`; a spectral matrix with zero
columns short-circuits to the fixed default `"C Major"` before any
correlation. -/
noncomputable def keyOf (S : List (List ℝ)) (sr : ℝ) (nfft : Nat) : String :=
  match S with
  | [] => "C Major"
  | _ :: _ =>
    let c := normalizeChroma (chroma S sr nfft)
    let best := (List.range 12).foldl (fun best i =>
      let sMaj := pearson c (rotateTemplate major_profile i)
      let sMin := pearson c (rotateTemplate minor_profile i)
      let best1 := if sMaj > best.2.2 then (i, true, sMaj) else best
      if sMin > best1.2.2 then (i, false, sMin) else best1) (0, true, (-1 : ℝ))
    NOTE_NAMES.getD best.1 ("C") ++ " " ++ (if best.2.1 then "Major" else "Minor")

/-! ## Volume control and soft limiting (src/backend/main.py:378-454) -/

/-- `_soft_limit` on a single sample (src/backend/main.py:447-454):
`np.where(|x| > threshold, sign(x) * (threshold + (1 - threshold) *
tanh((|x| - threshold) / (1 - threshold))), x)` — samples at or below the
threshold pass through unchanged. -/
noncomputable def softLimitSample (threshold x : ℝ) : ℝ :=
  if |x| > threshold then
    Real.sign x * (threshold + (1 - threshold) * Real.tanh ((|x| - threshold) / (1 - threshold)))
  else x

/-- `_soft_limit` on a whole channel: `np.where` applies the limiter
elementwise. -/
noncomputable def _soft_limit (audio : List ℝ) (threshold : ℝ) : List ℝ :=
  audio.map (softLimitSample threshold)

/-- Audio decoded by `librosa.load(..., mono=False)`: a list of channels. -/
structure LoadedAudio where
  data : List (List ℝ)
  sr : Nat

/-- The external effects inside `_apply_volume_control`'s `try` block that
can fail: the librosa decode, and the soundfile write (modelled as atomic:
it either raises, leaving the filesystem unchanged, or writes the whole
output file). -/
structure VolumeEnv where
  loadResult : Except String LoadedAudio
  writeOK : Bool

/-- A filesystem: written int16 channel data per path. -/
def FS := String → Option (List (List ℤ))

/-- Writing one file. -/
def fsWrite (fs : FS) (p : String) (d : List (List ℤ)) : FS :=
  fun q => if q = p then some d else fs q

/-- Stereo coercion (src/backend/main.py:387-390): a 1-channel signal is
duplicated, more than 2 channels are cut to the first 2. -/
def ensureStereo (a : List (List ℝ)) : List (List ℝ) :=
  match a with
  | [ch] => [ch, ch]
  | chs => chs.take 2

/-- Peak level `np.max(np.abs(audio))` (0 for empty audio). -/
noncomputable def peakOf (a : List (List ℝ)) : ℝ :=
  (a.map (fun ch => (ch.map (fun x => |x|)).foldr max 0)).foldr max 0

/-- RMS level `np.sqrt(np.mean(audio ** 2))`. -/
noncomputable def rmsOf (a : List (List ℝ)) : ℝ :=
  Real.sqrt ((a.map (fun ch => (ch.map (fun x => x ^ 2)).sum)).sum /
    ((a.map List.length).sum : ℝ))

/-- Decibel value `20 * log10 v`. -/
noncomputable def dB (v : ℝ) : ℝ := 20 * Real.logb 10 v

/-- The clipped gain (src/backend/main.py:392-414): the more restrictive of
the LUFS gain and the peak gain, clipped to `[-20, 6]`.  The `-np.inf`
branches of the Python collapse: zero peak (then also zero RMS) makes both
gains `+inf`, clipped to 6; zero RMS with positive peak cannot occur but is
translated faithfully as the peak-only branch. -/
noncomputable def finalGainDb (target_lufs max_peak peak rms : ℝ) : ℝ :=
  if peak ≤ 0 then 6
  else if rms ≤ 0 then max (-20) (min 6 (max_peak - dB peak))
  else max (-20) (min 6 (min (target_lufs - (dB rms - 0.691)) (max_peak - dB peak)))

/-- The pure processing chain inside `_apply_volume_control`'s `try` block:
stereo coercion, gain in dB converted to linear (`10 ^ (dB/20)`), and the
soft limiter at threshold 0.95. -/
noncomputable def processedAudio (a : List (List ℝ)) (target_lufs max_peak : ℝ) :
    List (List ℝ) :=
  let st := ensureStereo a
  let g := (10 : ℝ) ^ (finalGainDb target_lufs max_peak (peakOf st) (rmsOf st) / 20)
  st.map (fun ch => _soft_limit (ch.map (fun x => x * g)) 0.95)

/-- `astype(np.int16)` after scaling by 32767: truncation toward zero. -/
noncomputable def toInt16 (x : ℝ) : ℤ :=
  if 0 ≤ x then ⌊x * 32767⌋ else -⌊-(x * 32767)⌋

/-- `_apply_volume_control` (src/backend/main.py:378-444): the whole body
sits in a `try` whose `except` returns the original input path, so a failing
decode or write leaves the filesystem as it was and yields `input_path`;
success writes `workdir/mastered_controlled.wav` and returns that path. -/
noncomputable def _apply_volume_control (input_path workdir : String)
    (target_lufs max_peak : ℝ) (env : VolumeEnv) (fs : FS) : String × FS :=
  match env.loadResult with
  | .error _ => (input_path, fs)
  | .ok la =>
    if env.writeOK then
      let out := workdir ++ "/mastered_controlled.wav"
      (out, fsWrite fs out
        ((processedAudio la.data target_lufs max_peak).map (fun ch => ch.map toInt16)))
    else (input_path, fs)

/-! ## Helper lemmas -/

theorem flux_replicate (n : Nat) (a b : ℚ) :
    flux (List.replicate n a) (List.replicate n b) = n * max 0 (b - a) := by
  induction n with
  | zero => simp [flux]
  | succ k ih =>
    simp only [flux, List.replicate_succ, List.zipWith_cons_cons, List.sum_cons] at ih ⊢
    rw [ih]
    push_cast
    ring

/-- The onset envelope of a matrix with constant columns reduces to the
rectified column-level differences, scaled by the bin count. -/
theorem onsetEnvelope_replicate (r : Nat) (l : List ℚ) :
    onsetEnvelope (l.map (List.replicate r)) =
      (l.zip (l.drop 1)).map (fun pc : ℚ × ℚ => (r : ℚ) * max 0 (pc.2 - pc.1)) := by
  unfold onsetEnvelope
  rw [← List.map_drop, List.zip_map, List.map_map]
  exact List.map_congr_left (fun pc _ => flux_replicate r pc.1 pc.2)

theorem onsetEnvelope_length (S : List (List ℚ)) :
    (onsetEnvelope S).length = S.length - 1 := by
  simp [onsetEnvelope]

theorem normalizeEnv_length (e : List ℚ) : (normalizeEnv e).length = e.length := by
  unfold normalizeEnv
  by_cases h : listMax e = 0 <;> simp [h]

theorem autocorr_length (e : List ℚ) : (autocorr e).length = e.length := by
  simp [autocorr]

/-- The degenerate path of the tempo search: a lag window that is empty or
reaches past the autocorrelation array yields the 120 BPM fallback. -/
theorem tempoFromEnvelope_fallback (e : List ℚ) (sr hop : ℚ)
    (h : maxLagOf sr hop ≤ minLagOf sr hop ∨
      ((autocorr (normalizeEnv e)).length : ℤ) < maxLagOf sr hop) :
    tempoFromEnvelope e sr hop = 120 := by
  unfold tempoFromEnvelope
  simp only []
  rw [if_pos h]

theorem pickBest_eq_or_mem (c : ℚ × ℚ) (l : List (ℚ × ℚ)) :
    pickBest c l = c ∨ pickBest c l ∈ l := by
  induction l generalizing c with
  | nil => exact Or.inl rfl
  | cons a t ih =>
    simp only [pickBest, List.foldl_cons] at ih ⊢
    rcases ih (if a.2 > c.2 then a else c) with h | h
    · rw [h]
      split
      · exact Or.inr (List.mem_cons_self a t)
      · exact Or.inl rfl
    · exact Or.inr (List.mem_cons_of_mem a h)

theorem pickBest_le (c : ℚ × ℚ) (l : List (ℚ × ℚ)) :
    ∀ y ∈ c :: l, y.2 ≤ (pickBest c l).2 := by
  induction l generalizing c with
  | nil =>
    intro y hy
    rw [List.mem_singleton] at hy
    exact hy ▸ le_refl _
  | cons a t ih =>
    intro y hy
    have hw : pickBest c (a :: t) = pickBest (if a.2 > c.2 then a else c) t := rfl
    have hcw : c.2 ≤ (if a.2 > c.2 then a else c).2 := by
      split
      · linarith
      · exact le_refl _
    have haw : a.2 ≤ (if a.2 > c.2 then a else c).2 := by
      split
      · exact le_refl _
      · exact le_of_not_lt (by assumption)
    have hhead := ih (if a.2 > c.2 then a else c)
      (if a.2 > c.2 then a else c) (List.mem_cons_self _ _)
    rcases List.mem_cons.mp hy with rfl | hy2
    · rw [hw]; exact le_trans hcw hhead
    · rcases List.mem_cons.mp hy2 with rfl | hy3
      · rw [hw]; exact le_trans haw hhead
      · rw [hw]; exact ih _ y (List.mem_cons_of_mem _ hy3)

/-- The hyperbolic tangent stays strictly inside `(-1, 1)`. -/
theorem abs_tanh_lt_one (y : ℝ) : |Real.tanh y| < 1 := by
  rw [Real.tanh_eq_sinh_div_cosh, abs_div, abs_of_pos (Real.cosh_pos y),
    div_lt_one (Real.cosh_pos y), abs_lt]
  constructor
  · have h := Real.sinh_lt_cosh (-y)
    rw [Real.sinh_neg, Real.cosh_neg] at h
    linarith
  · exact Real.sinh_lt_cosh y

/-! ## The claims -/

set_option maxRecDepth 100000

/-- Claim C1: every successful call of the analyze operation returns a `bpm`
that is a number with at most one decimal place and a `key` drawn from the 24
fixed `"<NoteName> <Major|Minor>"` strings. -/
theorem analyze_output_contract (fileSize : Nat) (env : FfmpegEnv) (r : AnalysisResult)
    (h : analyze_audio fileSize env = .ok r) :
    r.key ∈ KEY_STRINGS ∧ (r.bpm * 10).den = 1 := by
  unfold analyze_audio at h
  cases hw : _to_wav fileSize env with
  | error e => rw [hw] at h; cases h
  | ok p =>
    rw [hw] at h
    cases h
    exact ⟨by decide!, by decide!⟩

/-- Witness for C1: the contract holds at a concrete successful call. -/
theorem analyze_output_contract_witness :
    ("A Minor" ∈ KEY_STRINGS) ∧ ((128 : ℚ) * 10).den = 1 :=
  analyze_output_contract 2048 envAllOk ⟨128, "A Minor", "3:24", "44.1 kHz"⟩ rfl

/-- Claim C2: whenever the onset envelope is too short for the 60–200 BPM lag
window (`max_lag ≤ min_lag`, or `max_lag` past the autocorrelation array
bounds) the Tempo Estimator returns the fixed fallback 120.0 BPM — a total
function, not an error. -/
theorem tempo_short_envelope_fallback (S : List (List ℚ)) (sr hop : ℚ)
    (h : maxLagOf sr hop ≤ minLagOf sr hop ∨
      ((autocorr (normalizeEnv (onsetEnvelope S))).length : ℤ) < maxLagOf sr hop) :
    tempoEstimate S sr hop = 120 :=
  tempoFromEnvelope_fallback (onsetEnvelope S) sr hop h

/-- Witness for C2: a short steady pure tone (constant-spectrum matrix, three
frames) triggers the degenerate path and yields 120.0 BPM. -/
theorem tempo_short_envelope_fallback_witness :
    tempoEstimate shortToneMatrix 22050 256 = 120 :=
  tempo_short_envelope_fallback shortToneMatrix 22050 256 (by decide!)

/-- Claim C3: on the synthetic click track with onsets every 0.5 s at
22050 Hz the Tempo Estimator reports a BPM within ±2 of 120. -/
theorem tempo_click_track_120 :
    |tempoEstimate clickMatrix120 22050 256 - 120| ≤ 2 := by
  show |tempoFromEnvelope (onsetEnvelope clickMatrix120) 22050 256 - 120| ≤ 2
  rw [clickMatrix120, onsetEnvelope_replicate]
  decide!

/-- Claim C4: octave correction evaluates `{bpm/2, bpm, bpm*2}`, discards
candidates outside `[60, 200]`, returns the surviving candidate with the
largest autocorrelation value, falls back to the raw BPM when none survives —
and consequently an 80 BPM click track is reported near 80, not at 160 or
40. -/
theorem octave_correction_policy :
    (∀ (bpm : ℚ) (lag : Nat) (ac : List ℚ), ∀ c ∈ survivors bpm lag ac,
        (c.1 = bpm / 2 ∨ c.1 = bpm ∨ c.1 = bpm * 2) ∧ 60 ≤ c.1 ∧ c.1 ≤ 200) ∧
    (∀ (bpm : ℚ) (lag : Nat) (ac : List ℚ),
        (survivors bpm lag ac = [] ∧ octaveCorrect bpm lag ac = bpm) ∨
          ∃ c ∈ survivors bpm lag ac, octaveCorrect bpm lag ac = c.1 ∧
            ∀ d ∈ survivors bpm lag ac, d.2 ≤ c.2) ∧
    |tempoEstimate clickMatrix80 22050 256 - 80| ≤ 1 := by
  refine ⟨?_, ?_, ?_⟩
  · intro bpm lag ac c hc
    have hmem := List.mem_filter.mp hc
    refine ⟨?_, of_decide_eq_true hmem.2⟩
    have hin := hmem.1
    simp only [octaveCandidates, List.mem_cons, List.not_mem_nil, or_false] at hin
    rcases hin with rfl | rfl | rfl
    · exact Or.inl rfl
    · exact Or.inr (Or.inl rfl)
    · exact Or.inr (Or.inr rfl)
  · intro bpm lag ac
    cases hs : survivors bpm lag ac with
    | nil =>
      refine Or.inl ⟨rfl, ?_⟩
      unfold octaveCorrect
      rw [hs]
    | cons c cs =>
      right
      have hco : octaveCorrect bpm lag ac = (pickBest c cs).1 := by
        unfold octaveCorrect
        rw [hs]
      refine ⟨pickBest c cs, ?_, hco, ?_⟩
      · rcases pickBest_eq_or_mem c cs with h | h
        · rw [h]; exact List.mem_cons_self _ _
        · exact List.mem_cons_of_mem _ h
      · intro d hd
        exact pickBest_le c cs d hd
  · show |tempoFromEnvelope (onsetEnvelope clickMatrix80) 22050 256 - 80| ≤ 1
    rw [clickMatrix80, onsetEnvelope_replicate]
    decide!

/-- Claim C5: a spectral matrix with zero columns makes the Key Classifier
return the fixed default `"C Major"` without attempting any correlation. -/
theorem key_zero_columns_default (sr : ℝ) (nfft : Nat) :
    keyOf [] sr nfft = "C Major" := rfl

/-- Counterexample to C6 as stated: a zero-byte upload does not receive a
degenerate analysis result — `_to_wav`'s size validation raises, and the
endpoint re-raises it as status 500. -/
theorem analyze_empty_upload_error :
    analyze_audio 0 envAllOk = .error ⟨500, "Analysis failed: Uploaded file is empty"⟩ := rfl

/-- Claim C6 (amended): an empty upload is rejected with an `HTTPException`
by the endpoint (never a degenerate result), while the analysis core itself
degrades gracefully on short buffers — a spectral matrix with at most one
column (a buffer shorter than one FFT frame) yields the 120.0 BPM fallback,
and a zero-column matrix yields the `"C Major"` key fallback. -/
theorem analyze_degenerate_inputs :
    (∀ env : FfmpegEnv, analyze_audio 0 env =
        .error ⟨500, "Analysis failed: Uploaded file is empty"⟩) ∧
    (∀ S : List (List ℚ), S.length ≤ 1 → tempoEstimate S 22050 256 = 120) ∧
    (∀ (sr : ℝ) (nfft : Nat), keyOf [] sr nfft = "C Major") := by
  refine ⟨fun env => rfl, ?_, fun sr nfft => rfl⟩
  intro S hS
  apply tempoFromEnvelope_fallback
  right
  have h1 : (onsetEnvelope S).length = 0 := by
    rw [onsetEnvelope_length]
    omega
  rw [autocorr_length, normalizeEnv_length, h1]
  decide!

/-- Claim C7: the analyze operation is deterministic and touches no hidden
state — a second call on the same input, sequenced through the job registry
left by the first, returns bit-identical output, and the registry is
unchanged. -/
theorem analyze_idempotent (fileSize : Nat) (env : FfmpegEnv) (jobs : JobStore) :
    (analyze_call fileSize env (analyze_call fileSize env jobs).2).1 =
        (analyze_call fileSize env jobs).1 ∧
      (analyze_call fileSize env jobs).2 = jobs :=
  ⟨rfl, rfl⟩

/-- Claim C8: every `/analyze` request whose upload passes conversion gets
the one constant response `{"bpm": 128.0, "key": "A Minor", "duration":
"3:24", "sample_rate": "44.1 kHz"}` — independent of the audio content, with
`duration` and `sample_rate` as strings. -/
theorem analyze_response_is_constant (fileSize : Nat) (env : FfmpegEnv) (p : String)
    (h : _to_wav fileSize env = .ok p) :
    analyze_audio fileSize env = .ok ⟨128, "A Minor", "3:24", "44.1 kHz"⟩ := by
  unfold analyze_audio
  rw [h]

/-- Witness for C8: the constant response at a concrete passing upload. -/
theorem analyze_response_is_constant_witness :
    analyze_audio 2048 envAllOk = .ok ⟨128, "A Minor", "3:24", "44.1 kHz"⟩ :=
  analyze_response_is_constant 2048 envAllOk "converted.wav" rfl

/-- Claim C9: the soft limiter passes any sample within the threshold
through unchanged, and at threshold 0.95 its output always has magnitude
strictly below 1 (it never clips). -/
theorem soft_limit_transparent_and_bounded :
    (∀ threshold x : ℝ, |x| ≤ threshold → softLimitSample threshold x = x) ∧
    (∀ x : ℝ, |softLimitSample 0.95 x| < 1) := by
  constructor
  · intro t x h
    unfold softLimitSample
    rw [if_neg (not_lt.mpr h)]
  · intro x
    unfold softLimitSample
    split
    case isTrue h =>
      have hx : x ≠ 0 := by
        intro h0
        rw [h0, abs_zero] at h
        norm_num at h
      have htanh := abs_tanh_lt_one ((|x| - 0.95) / (1 - 0.95))
      rw [abs_lt] at htanh
      have hM0 : (0 : ℝ) < 0.95 + (1 - 0.95) * Real.tanh ((|x| - 0.95) / (1 - 0.95)) := by
        nlinarith [htanh.1]
      have hM1 : 0.95 + (1 - 0.95) * Real.tanh ((|x| - 0.95) / (1 - 0.95)) < 1 := by
        nlinarith [htanh.2]
      rw [abs_mul]
      have habs : |Real.sign x| = 1 := by
        rcases Real.sign_apply_eq_of_ne_zero x hx with hs | hs <;> rw [hs] <;> norm_num
      rw [habs, one_mul, abs_of_pos hM0]
      exact hM1
    case isFalse h =>
      calc |x| ≤ 0.95 := not_lt.mp h
        _ < 1 := by norm_num

/-- Claim C10: `_apply_volume_control` is total — it either returns the
original input path with the filesystem untouched (any failing step), or the
path of the newly written `mastered_controlled.wav` with exactly that file
written. -/
theorem volume_control_total (ip wd : String) (tl mp : ℝ) (env : VolumeEnv) (fs : FS) :
    _apply_volume_control ip wd tl mp env fs = (ip, fs) ∨
      ∃ d, _apply_volume_control ip wd tl mp env fs =
        (wd ++ "/mastered_controlled.wav", fsWrite fs (wd ++ "/mastered_controlled.wav") d) := by
  unfold _apply_volume_control
  cases henv : env.loadResult with
  | error e => exact Or.inl rfl
  | ok la =>
    cases hw : env.writeOK with
    | false => exact Or.inl rfl
    | true => exact Or.inr ⟨_, rfl⟩

end StudioBuddy
